import Mathlib

/-!
Verification of the WSG command-message encoder (`wsg_command_message.h`).

The development shallowly embeds the encoder: C `uint16_t` arithmetic becomes
`Nat` with explicit `% 65536` where the C code narrows, byte buffers become
`List Nat`, and the in-place `Serialize` method becomes a function from the
caller's buffer to the updated buffer.
-/

namespace schunk_driver

/-- CRC lookup table, copied entry for entry from `CRC_TABLE` in
`wsg_command_message.h` (lines 115-148). -/
def CRC_TABLE : List Nat := [
  0x0000, 0x1021, 0x2042, 0x3063, 0x4084, 0x50a5, 0x60c6, 0x70e7,
  0x8108, 0x9129, 0xa14a, 0xb16b, 0xc18c, 0xd1ad, 0xe1ce, 0xf1ef,
  0x1231, 0x0210, 0x3273, 0x2252, 0x52b5, 0x4294, 0x72f7, 0x62d6,
  0x9339, 0x8318, 0xb37b, 0xa35a, 0xd3bd, 0xc39c, 0xf3ff, 0xe3de,
  0x2462, 0x3443, 0x0420, 0x1401, 0x64e6, 0x74c7, 0x44a4, 0x5485,
  0xa56a, 0xb54b, 0x8528, 0x9509, 0xe5ee, 0xf5cf, 0xc5ac, 0xd58d,
  0x3653, 0x2672, 0x1611, 0x0630, 0x76d7, 0x66f6, 0x5695, 0x46b4,
  0xb75b, 0xa77a, 0x9719, 0x8738, 0xf7df, 0xe7fe, 0xd79d, 0xc7bc,
  0x48c4, 0x58e5, 0x6886, 0x78a7, 0x0840, 0x1861, 0x2802, 0x3823,
  0xc9cc, 0xd9ed, 0xe98e, 0xf9af, 0x8948, 0x9969, 0xa90a, 0xb92b,
  0x5af5, 0x4ad4, 0x7ab7, 0x6a96, 0x1a71, 0x0a50, 0x3a33, 0x2a12,
  0xdbfd, 0xcbdc, 0xfbbf, 0xeb9e, 0x9b79, 0x8b58, 0xbb3b, 0xab1a,
  0x6ca6, 0x7c87, 0x4ce4, 0x5cc5, 0x2c22, 0x3c03, 0x0c60, 0x1c41,
  0xedae, 0xfd8f, 0xcdec, 0xddcd, 0xad2a, 0xbd0b, 0x8d68, 0x9d49,
  0x7e97, 0x6eb6, 0x5ed5, 0x4ef4, 0x3e13, 0x2e32, 0x1e51, 0x0e70,
  0xff9f, 0xefbe, 0xdfdd, 0xcffc, 0xbf1b, 0xaf3a, 0x9f59, 0x8f78,
  0x9188, 0x81a9, 0xb1ca, 0xa1eb, 0xd10c, 0xc12d, 0xf14e, 0xe16f,
  0x1080, 0x00a1, 0x30c2, 0x20e3, 0x5004, 0x4025, 0x7046, 0x6067,
  0x83b9, 0x9398, 0xa3fb, 0xb3da, 0xc33d, 0xd31c, 0xe37f, 0xf35e,
  0x02b1, 0x1290, 0x22f3, 0x32d2, 0x4235, 0x5214, 0x6277, 0x7256,
  0xb5ea, 0xa5cb, 0x95a8, 0x8589, 0xf56e, 0xe54f, 0xd52c, 0xc50d,
  0x34e2, 0x24c3, 0x14a0, 0x0481, 0x7466, 0x6447, 0x5424, 0x4405,
  0xa7db, 0xb7fa, 0x8799, 0x97b8, 0xe75f, 0xf77e, 0xc71d, 0xd73c,
  0x26d3, 0x36f2, 0x0691, 0x16b0, 0x6657, 0x7676, 0x4615, 0x5634,
  0xd94c, 0xc96d, 0xf90e, 0xe92f, 0x99c8, 0x89e9, 0xb98a, 0xa9ab,
  0x5844, 0x4865, 0x7806, 0x6827, 0x18c0, 0x08e1, 0x3882, 0x28a3,
  0xcb7d, 0xdb5c, 0xeb3f, 0xfb1e, 0x8bf9, 0x9bd8, 0xabbb, 0xbb9a,
  0x4a75, 0x5a54, 0x6a37, 0x7a16, 0x0af1, 0x1ad0, 0x2ab3, 0x3a92,
  0xfd2e, 0xed0f, 0xdd6c, 0xcd4d, 0xbdaa, 0xad8b, 0x9de8, 0x8dc9,
  0x7c26, 0x6c07, 0x5c64, 0x4c45, 0x3ca2, 0x2c83, 0x1ce0, 0x0cc1,
  0xef1f, 0xff3e, 0xcf5d, 0xdf7c, 0xaf9b, 0xbfba, 0x8fd9, 0x9ff8,
  0x6e17, 0x7e36, 0x4e55, 0x5e74, 0x2e93, 0x3eb2, 0x0ed1, 0x1ef0]

/-- Loop body of `checksum_update_crc16` (lines 156-158): one iteration per
input byte, in order; the assignment back into the `uint16_t` local `crc`
narrows modulo `2^16`. -/
def checksum_loop : List Nat → Nat → Nat
  | [], crc => crc
  | b :: rest, crc =>
      checksum_loop rest
        ((CRC_TABLE.getD ((crc ^^^ b) &&& 0xFF) 0 ^^^ (crc >>> 8)) % 65536)

/-- Embedding of `checksum_update_crc16` (lines 150-161): the accumulator
starts at `0xFFFF` and the loop processes each byte of `data`. -/
def checksum_update_crc16 (data : List Nat) : Nat :=
  checksum_loop data 0xFFFF

/-- Embedding of class `WsgCommandMessage` state (lines 186-187):
`command_` is a C `int`, `payload_` the owned byte vector. The constructor
(lines 165-169) stores the command unchanged and copies the payload bytes
verbatim, so `WsgCommandMessage.mk` is exactly the constructor; it has no
failure path, matching the source, which performs no validation. -/
structure WsgCommandMessage where
  command_ : Int
  payload_ : List Nat

/-- Embedding of `std::vector::resize` on byte vectors: keep the first `n`
elements, pad with zero-initialized elements when growing. -/
def listResize (l : List Nat) (n : Nat) : List Nat :=
  l.take n ++ List.replicate (n - l.length) 0

/-- Embedding of `memcpy(dst.data() + off, src.data(), src.size())`:
overwrite `src.length` elements of `dst` starting at offset `off`. -/
def memcpyAt (dst : List Nat) (off : Nat) (src : List Nat) : List Nat :=
  dst.take off ++ src ++ (dst.drop off).drop src.length

/-- Embedding of `WsgCommandMessage::Serialize` (lines 171-183), statement
by statement: resize the caller's buffer to `payload.size() + 8`, write the
three preamble bytes, the command byte (`command_ & 0xff`, a C `int`
bitwise-and, nonnegative hence `toNat`), the two length-field bytes, copy
the payload at offset 6, then append the CRC of the first
`payload.size() + 6` bytes, low byte first. -/
def WsgCommandMessage.Serialize (m : WsgCommandMessage) (buffer : List Nat) :
    List Nat :=
  let b0 := listResize buffer (m.payload_.length + 8)
  let b1 := b0.set 0 0xaa
  let b2 := b1.set 1 0xaa
  let b3 := b2.set 2 0xaa
  let b4 := b3.set 3 (Int.land m.command_ 0xff).toNat
  let b5 := b4.set 4 (m.payload_.length &&& 0xFF)
  let b6 := b5.set 5 ((m.payload_.length <<< 8) &&& 0xFF)
  let b7 := memcpyAt b6 6 m.payload_
  let crc := checksum_update_crc16 (b7.take (m.payload_.length + 6))
  let b8 := b7.set (m.payload_.length + 6) (crc &&& 0xFF)
  b8.set (m.payload_.length + 7) ((crc >>> 8) &&& 0xFF)

/-- The fixed header of a serialized frame: preamble, command byte and the
two length-field bytes, exactly as `Serialize` writes them. -/
def serializedHead (m : WsgCommandMessage) : List Nat :=
  [0xaa, 0xaa, 0xaa, (Int.land m.command_ 0xff).toNat,
   m.payload_.length &&& 0xFF, (m.payload_.length <<< 8) &&& 0xFF]
  ++ m.payload_

/-- Closed form of the buffer `Serialize` produces: header and payload
followed by the CRC of that prefix, low byte first. -/
def serializedForm (m : WsgCommandMessage) : List Nat :=
  serializedHead m
  ++ [checksum_update_crc16 (serializedHead m) &&& 0xFF,
      (checksum_update_crc16 (serializedHead m) >>> 8) &&& 0xFF]

/-- Checksum algorithm as the spec's words state it (section 4.1): initialize
an accumulator to `0xFFFF`; for each input byte set
`acc = TABLE[(acc XOR byte) & 0xFF] XOR (acc >> 8)`; no final XOR. -/
def checksumSpecFold (data : List Nat) : Nat :=
  data.foldl (fun acc b => CRC_TABLE.getD ((acc ^^^ b) &&& 0xFF) 0 ^^^ (acc >>> 8)) 0xFFFF

/-- One bit-step of the standard bit-reflected (LSB-first) CRC table
generation, following the spec's words in section 4.1: the bit-reflected
form of the CRC-CCITT polynomial 0x1021 is 0x8408, and each step shifts the
register right, folding the reflected polynomial in when the dropped bit
was set. -/
def reflectedStep (r : Nat) : Nat :=
  if r % 2 = 1 then (r >>> 1) ^^^ 0x8408 else r >>> 1

/-- Table entry prescribed for index `i` by the standard bit-reflected
table generation (eight bit-steps applied to the index). -/
def crcReflectedTableEntry (i : Nat) : Nat :=
  reflectedStep (reflectedStep (reflectedStep (reflectedStep
    (reflectedStep (reflectedStep (reflectedStep (reflectedStep i)))))))

/-- One bit-step of the standard non-reflected (MSB-first) CRC table
generation for the CRC-CCITT polynomial 0x1021: shift the 16-bit register
left, folding the polynomial in when the dropped bit was set. -/
def msbStep (r : Nat) : Nat :=
  if r &&& 0x8000 = 0 then (r <<< 1) &&& 0xFFFF
  else ((r <<< 1) ^^^ 0x1021) &&& 0xFFFF

/-- Table entry prescribed for index `i` by the standard MSB-first table
generation for polynomial 0x1021: eight bit-steps applied to `i <<< 8`. -/
def crcMsbTableEntry (i : Nat) : Nat :=
  msbStep (msbStep (msbStep (msbStep
    (msbStep (msbStep (msbStep (msbStep (i <<< 8))))))))

/-! ### Helper lemmas -/

set_option maxRecDepth 8000 in
theorem CRC_TABLE_getD_lt (i : Nat) : CRC_TABLE.getD i 0 < 65536 := by
  rcases Nat.lt_or_ge i 256 with h | h
  · have hall : ∀ j, j < 256 → CRC_TABLE.getD j 0 < 65536 := by decide
    exact hall i h
  · rw [List.getD_eq_default]
    · norm_num
    · have : CRC_TABLE.length = 256 := by decide
      omega

theorem checksum_loop_lt (data : List Nat) (crc : Nat) (h : crc < 65536) :
    checksum_loop data crc < 65536 := by
  induction data generalizing crc with
  | nil => exact h
  | cons b rest ih =>
    exact ih _ (Nat.mod_lt _ (by norm_num))

theorem checksum_update_crc16_lt (data : List Nat) :
    checksum_update_crc16 data < 65536 :=
  checksum_loop_lt data 0xFFFF (by norm_num)

theorem checksum_loop_eq_foldl (data : List Nat) (crc : Nat) (h : crc < 65536) :
    checksum_loop data crc
      = data.foldl (fun acc b => CRC_TABLE.getD ((acc ^^^ b) &&& 0xFF) 0 ^^^ (acc >>> 8)) crc := by
  induction data generalizing crc with
  | nil => rfl
  | cons b rest ih =>
    simp only [checksum_loop, List.foldl_cons]
    have h2 : crc >>> 8 < 65536 := by
      rw [Nat.shiftRight_eq_div_pow]
      exact lt_of_le_of_lt (Nat.div_le_self _ _) h
    have hlt : CRC_TABLE.getD ((crc ^^^ b) &&& 0xFF) 0 ^^^ (crc >>> 8) < 65536 := by
      have h1 := CRC_TABLE_getD_lt ((crc ^^^ b) &&& 0xFF)
      have h65536 : (65536 : ℕ) = 2 ^ 16 := by norm_num
      rw [h65536] at h1 h2 ⊢
      exact Nat.xor_lt_two_pow h1 h2
    rw [Nat.mod_eq_of_lt hlt]
    exact ih _ hlt

theorem nat_and_255_eq_mod (m : Nat) : m &&& 255 = m % 256 := by
  have h := Nat.and_pow_two_sub_one_eq_mod m 8
  norm_num at h
  exact h

theorem ldiff_255_eq_xor (m : Nat) : Nat.ldiff 255 m = 255 ^^^ (m &&& 255) := by
  apply Nat.eq_of_testBit_eq
  intro i
  rw [Nat.testBit_ldiff, Nat.testBit_xor, Nat.testBit_and]
  cases Nat.testBit 255 i <;> cases Nat.testBit m i <;> rfl

set_option maxRecDepth 4000 in
theorem xor_255_eq_sub (r : Nat) (h : r < 256) : 255 ^^^ r = 255 - r := by
  have hall : ∀ s, s < 256 → 255 ^^^ s = 255 - s := by decide
  exact hall r h

theorem int_land_255_eq_emod (a : ℤ) : Int.land a 255 = a % 256 := by
  rcases a with m | m
  · have h1 : Int.land (Int.ofNat m) 255 = ((m &&& 255 : ℕ) : ℤ) := rfl
    rw [h1, nat_and_255_eq_mod]
    rfl
  · have h1 : Int.land (Int.negSucc m) 255 = ((Nat.ldiff 255 m : ℕ) : ℤ) := rfl
    rw [h1, ldiff_255_eq_xor, nat_and_255_eq_mod,
      xor_255_eq_sub _ (Nat.mod_lt _ (by norm_num)), Int.negSucc_eq]
    omega

theorem listResize_length (l : List Nat) (n : Nat) : (listResize l n).length = n := by
  simp [listResize]
  omega

theorem exists_six_cons (l : List Nat) (k : Nat) (h : l.length = k + 6) :
    ∃ a b c d e f rest, rest.length = k ∧ l = a :: b :: c :: d :: e :: f :: rest := by
  rcases l with _ | ⟨a, _ | ⟨b, _ | ⟨c, _ | ⟨d, _ | ⟨e, _ | ⟨f, rest⟩⟩⟩⟩⟩⟩ <;>
    simp only [List.length_nil, List.length_cons] at h
  · omega
  · omega
  · omega
  · omega
  · omega
  · omega
  · exact ⟨a, b, c, d, e, f, rest, by omega, rfl⟩

theorem set_six (a b c d e f v0 v1 v2 v3 v4 v5 : Nat) (rest : List Nat) :
    ((((((a :: b :: c :: d :: e :: f :: rest).set 0 v0).set 1 v1).set 2 v2).set 3 v3).set 4
        v4).set 5 v5 = v0 :: v1 :: v2 :: v3 :: v4 :: v5 :: rest := rfl

theorem memcpyAt_six (v0 v1 v2 v3 v4 v5 : Nat) (rest p : List Nat) :
    memcpyAt (v0 :: v1 :: v2 :: v3 :: v4 :: v5 :: rest) 6 p
      = [v0, v1, v2, v3, v4, v5] ++ p ++ rest.drop p.length := rfl

theorem set_append_two (A : List Nat) (y0 y1 v w : Nat) :
    ((A ++ [y0, y1]).set A.length v).set (A.length + 1) w = A ++ [v, w] := by
  induction A with
  | nil => rfl
  | cons a A ih =>
    simp only [List.cons_append, List.length_cons, List.set_cons_succ]
    rw [ih]

theorem Serialize_eq_serializedForm (m : WsgCommandMessage) (buffer : List Nat) :
    m.Serialize buffer = serializedForm m := by
  obtain ⟨a, b, c, d, e, f, rest, hrest, hL⟩ :=
    exists_six_cons (listResize buffer (m.payload_.length + 8)) (m.payload_.length + 2)
      (by rw [listResize_length])
  obtain ⟨y0, y1, hy⟩ : ∃ y0 y1, rest.drop m.payload_.length = [y0, y1] :=
    List.length_eq_two.mp (by rw [List.length_drop, hrest]; omega)
  simp only [WsgCommandMessage.Serialize]
  rw [hL, set_six, memcpyAt_six, hy]
  have htake :
      (([0xaa, 0xaa, 0xaa, (Int.land m.command_ 0xff).toNat, m.payload_.length &&& 0xFF,
          (m.payload_.length <<< 8) &&& 0xFF] ++ m.payload_) ++ [y0, y1]).take
        (m.payload_.length + 6)
        = [0xaa, 0xaa, 0xaa, (Int.land m.command_ 0xff).toNat, m.payload_.length &&& 0xFF,
            (m.payload_.length <<< 8) &&& 0xFF] ++ m.payload_ :=
    List.take_left' (by simp)
  rw [htake]
  show ((serializedHead m ++ [y0, y1]).set (m.payload_.length + 6)
        (checksum_update_crc16 (serializedHead m) &&& 0xFF)).set (m.payload_.length + 7)
        ((checksum_update_crc16 (serializedHead m) >>> 8) &&& 0xFF) = serializedForm m
  have hlen : (serializedHead m).length = m.payload_.length + 6 := by
    simp [serializedHead]
  rw [show m.payload_.length + 6 = (serializedHead m).length from hlen.symm,
    show m.payload_.length + 7 = (serializedHead m).length + 1 from by rw [hlen]]
  rw [set_append_two]
  rfl

theorem getD_append_two_left (A : List Nat) (x y d : Nat) :
    (A ++ [x, y]).getD A.length d = x := by
  induction A with
  | nil => rfl
  | cons a A ih => simpa using ih

theorem getD_append_two_right (A : List Nat) (x y d : Nat) :
    (A ++ [x, y]).getD (A.length + 1) d = y := by
  induction A with
  | nil => rfl
  | cons a A ih => simpa using ih

theorem crc_lo_hi (crc : Nat) (h : crc < 65536) :
    (crc &&& 0xFF) + 256 * ((crc >>> 8) &&& 0xFF) = crc := by
  rw [nat_and_255_eq_mod, nat_and_255_eq_mod, Nat.shiftRight_eq_div_pow]
  norm_num
  have h2 : crc / 256 < 256 := by omega
  rw [Nat.mod_eq_of_lt h2]
  omega

/-! ### Claims -/

/-- C3: for every (command, payload) pair with payload length `N`, `Serialize`
produces a buffer of exactly `N + 8` bytes whose last two bytes, read low
byte first, are the checksum engine's CRC over the first `N + 6` bytes of
that same buffer; the checksum bytes are outside the checksummed range. -/
theorem serialize_appends_crc_of_prefix (m : WsgCommandMessage) (buffer : List Nat) :
    (m.Serialize buffer).length = m.payload_.length + 8 ∧
    (m.Serialize buffer).getD (m.payload_.length + 6) 0 +
        256 * (m.Serialize buffer).getD (m.payload_.length + 7) 0
      = checksum_update_crc16 ((m.Serialize buffer).take (m.payload_.length + 6)) := by
  rw [Serialize_eq_serializedForm, serializedForm]
  have hlen : (serializedHead m).length = m.payload_.length + 6 := by
    simp [serializedHead]
  constructor
  · simp [hlen]
  · rw [List.take_left' hlen,
      show m.payload_.length + 6 = (serializedHead m).length from hlen.symm,
      show m.payload_.length + 7 = (serializedHead m).length + 1 from by rw [hlen],
      getD_append_two_left, getD_append_two_right]
    exact crc_lo_hi _ (checksum_update_crc16_lt _)

/-- C5: the checksum engine is the fold that starts from accumulator `0xFFFF`
and for each byte in order sets `acc = TABLE[(acc XOR byte) & 0xFF] XOR (acc >> 8)`
with no final XOR, and on empty input it returns exactly `0xFFFF`. -/
theorem checksum_engine_fold_and_empty :
    (∀ data : List Nat, checksum_update_crc16 data = checksumSpecFold data) ∧
    checksum_update_crc16 [] = 0xFFFF := by
  constructor
  · intro data
    rw [checksum_update_crc16, checksumSpecFold]
    exact checksum_loop_eq_foldl data 0xFFFF (by norm_num)
  · rfl

/-- C6: the first three bytes of every serialized buffer are `0xAA 0xAA 0xAA`
and byte 3 equals `command & 0xFF`. -/
theorem serialize_preamble_and_command (m : WsgCommandMessage) (buffer : List Nat) :
    (m.Serialize buffer).getD 0 0 = 0xaa ∧ (m.Serialize buffer).getD 1 0 = 0xaa ∧
    (m.Serialize buffer).getD 2 0 = 0xaa ∧
    (m.Serialize buffer).getD 3 0 = (Int.land m.command_ 0xff).toNat := by
  rw [Serialize_eq_serializedForm]
  exact ⟨rfl, rfl, rfl, rfl⟩

/-- C7: bytes 6 through `6 + N - 1` of the serialized buffer are the payload
bytes supplied at construction, verbatim and in order. -/
theorem serialize_payload_verbatim (m : WsgCommandMessage) (buffer : List Nat) :
    ((m.Serialize buffer).drop 6).take m.payload_.length = m.payload_ := by
  rw [Serialize_eq_serializedForm]
  have h : (serializedForm m).drop 6
      = m.payload_ ++ [checksum_update_crc16 (serializedHead m) &&& 0xFF,
          (checksum_update_crc16 (serializedHead m) >>> 8) &&& 0xFF] := rfl
  rw [h]
  exact List.take_left m.payload_ _

/-- C8: serializing the same message twice yields byte-identical buffers, and
serialization does not mutate the message (it is a pure function of the
message here; the second call, fed the first call's output buffer, returns
it unchanged). -/
theorem serialize_idempotent (m : WsgCommandMessage) (buffer : List Nat) :
    m.Serialize (m.Serialize buffer) = m.Serialize buffer := by
  rw [Serialize_eq_serializedForm, Serialize_eq_serializedForm]

/-- C9: construction succeeds for every integer command value, and byte 3 of
the serialized buffer is `command mod 256`: out-of-range command codes are
silently reduced to their low 8 bits, not rejected. -/
theorem serialize_command_byte_mod_256 (command : Int) (payload buffer : List Nat) :
    ((WsgCommandMessage.mk command payload).Serialize buffer).getD 3 0
      = (command % 256).toNat := by
  rw [Serialize_eq_serializedForm]
  show (Int.land command 0xff).toNat = (command % 256).toNat
  rw [int_land_255_eq_emod]

/-- C10: the serialized buffer depends only on the message; the prior size
and contents of the caller's output buffer never leak into the result. -/
theorem serialize_independent_of_prior_buffer (m : WsgCommandMessage)
    (b1 b2 : List Nat) : m.Serialize b1 = m.Serialize b2 := by
  rw [Serialize_eq_serializedForm, Serialize_eq_serializedForm]

/-- C4 counterexample: the table entry at index 1 is `0x1021`, which differs
from the value the standard bit-reflected table generation for polynomial
0x1021 prescribes for index 1 (namely `0x1189`). -/
theorem crc_table_not_reflected_at_one :
    CRC_TABLE.getD 1 0 ≠ crcReflectedTableEntry 1 := by decide

set_option maxRecDepth 8000 in
/-- C4 (amended): every one of the 256 entries of `CRC_TABLE` equals the
value prescribed for its index by the standard non-reflected (MSB-first)
table generation for the CRC-CCITT polynomial 0x1021. -/
theorem crc_table_msb_generated (i : Nat) (h : i < 256) :
    CRC_TABLE.getD i 0 = crcMsbTableEntry i := by
  have hall : ∀ j, j < 256 → CRC_TABLE.getD j 0 = crcMsbTableEntry j := by decide
  exact hall i h

/-- Witness for C4 (amended) at index 7. -/
theorem crc_table_msb_generated_witness :
    7 < 256 ∧ CRC_TABLE.getD 7 0 = crcMsbTableEntry 7 :=
  ⟨by norm_num, crc_table_msb_generated 7 (by norm_num)⟩

set_option maxRecDepth 20000 in
/-- C1: at payload length 256 the serialized length field reads, low byte
first, as 0 instead of 256: byte 4 is `256 & 0xFF = 0` but byte 5 is
`(256 << 8) & 0xFF = 0`, whereas the claimed encoding `(256 >> 8) & 0xFF`
is 1; the code's `<<` where the spec's table says `>>` zeroes the high
byte for every payload length. -/
theorem serialize_length_field_truncated_at_256 :
    ((WsgCommandMessage.mk 0x25 (List.replicate 256 0)).Serialize []).getD 4 0 = 0 ∧
    ((WsgCommandMessage.mk 0x25 (List.replicate 256 0)).Serialize []).getD 5 0 = 0 ∧
    (256 >>> 8) &&& 0xFF = 1 := by
  rw [Serialize_eq_serializedForm]
  refine ⟨?_, ?_, by decide⟩
  · decide
  · decide

/-- C2: the constructor performs no validation: a negative (hence not
8-bit-representable) command such as `-1` is accepted and truncated to
byte `0xFF` at serialization, and a payload of length 65536 is accepted
unchanged; no `InvalidArgument` failure path exists in the code. -/
theorem constructor_accepts_out_of_range :
    (WsgCommandMessage.mk (-1) []).command_ = -1 ∧
    ((WsgCommandMessage.mk (-1) []).Serialize []).getD 3 0 = 0xff ∧
    (WsgCommandMessage.mk 0x25 (List.replicate 65536 0)).payload_.length = 65536 := by
  refine ⟨rfl, ?_, List.length_replicate 65536 0⟩
  rw [Serialize_eq_serializedForm]
  show (Int.land (-1) 0xff).toNat = 0xff
  rw [int_land_255_eq_emod]
  rfl

set_option maxRecDepth 4000 in
example :
    (WsgCommandMessage.mk 0x21 [1, 2, 3, 4, 5, 6, 7, 8]).Serialize []
      = [0xaa, 0xaa, 0xaa, 0x21, 0x08, 0x00, 1, 2, 3, 4, 5, 6, 7, 8, 0x5c, 0x5a] := by
  decide

set_option maxRecDepth 4000 in
example :
    (WsgCommandMessage.mk 0x25 []).Serialize []
      = [0xaa, 0xaa, 0xaa, 0x25, 0x00, 0x00, 0x71, 0x40] := by
  decide

end schunk_driver
